import Mathlib

/-!
# BeautyConnect backend — shallow embedding

A Lean embedding of the BeautyConnect booking backend (`src/main.py`,
`src/schemas.py`): the declared entity shapes with their pydantic
validation, the document-store gateway (`database.create_document` /
`database.get_documents`, which is not part of the repository's source and
is therefore modelled from the specification), and the HTTP endpoint
handlers. Theorems below settle the specification's claims against these
definitions.

Conventions:
* caller-supplied integers are `Int`; `rating` is `Rat` (python float used
  only for bounded decimal ratings here);
* optional / nullable values are `Option`;
* datetimes are carried as their (already parsed) wire strings — no claim
  depends on datetime arithmetic;
* fallible operations return `Except`; store write failures are driven by
  an explicit failure schedule inside the store state, standing for the
  spec's StoreUnavailable / StoreWriteError / StoreReadError conditions.
-/

namespace BeautyConnect

/-! ## Errors -/

/-- Field-level validation failure produced by the declared-shape
(pydantic) validation layer. -/
structure ValidationError where
  field : String
  msg : String
  deriving DecidableEq, Repr

/-- Failures of the document-store gateway. -/
inductive StoreError where
  | unavailable
  | writeError
  | readError
  deriving DecidableEq, Repr

/-- Errors surfaced to an HTTP caller: `invalidInput` (4xx, with the
offending field) from shape validation, `internalError` (the 500 raised by
the `except Exception` handler in every endpoint). -/
inductive ApiError where
  | invalidInput (field : String)
  | internalError
  deriving DecidableEq, Repr

/-! ## Validators modelled from the spec

`EmailStr` and `HttpUrl` validation lives in the pydantic library, outside
this repository; the spec only requires "valid email format" and an URL.
-/

/-- Split a character list at its unique `@`: `some (l, d)` when exactly
one `@` occurs, separating local part `l` from domain `d`. -/
def emailParts : List Char → Option (List Char × List Char)
  | [] => none
  | c :: cs =>
    if c = '@' then
      if cs.contains '@' then none else some ([], cs)
    else
      match emailParts cs with
      | none => none
      | some (l, d) => some (c :: l, d)

/-- Modelled from the spec: pydantic `EmailStr` ("valid email format") —
the validator itself is pydantic library code, absent from `src/`. A value
passes when it splits on a single `@` into a non-empty local part and a
non-empty domain containing a dot. The string `"not-an-email"` fails. -/
def is_valid_email (s : String) : Bool :=
  match emailParts s.toList with
  | none => false
  | some (l, d) => !l.isEmpty && !d.isEmpty && d.contains '.'

/-- Modelled from the spec: pydantic `HttpUrl` ("optional URL") — library
code absent from `src/`. A value passes when it starts with an http(s)
scheme. -/
def is_valid_url (s : String) : Bool :=
  "http://".toList.isPrefixOf s.toList || "https://".toList.isPrefixOf s.toList

/-! ## Declared shapes (`src/schemas.py`) -/

/-- Embeds `schemas.Master` (validated). -/
structure Master where
  name : String
  email : Option String := none
  phone : Option String := none
  city : Option String := none
  bio : Option String := none
  avatar : Option String := none
  skills : List String := []
  rating : Rat := 0
  reviews_count : Int := 0
  deriving DecidableEq, Repr

/-- Embeds `schemas.Client` (validated). -/
structure Client where
  name : String
  email : String
  phone : Option String := none
  avatar : Option String := none
  deriving DecidableEq, Repr

/-- Embeds `schemas.Booking.status` — `Literal['pending', 'confirmed',
'completed', 'cancelled']`. -/
inductive BookingStatus where
  | pending
  | confirmed
  | completed
  | cancelled
  deriving DecidableEq, Repr

/-- Embeds `schemas.Booking` (validated). -/
structure Booking where
  master_id : String
  client_id : String
  service_id : String
  datetime_utc : String
  status : BookingStatus := .pending
  notes : Option String := none
  deriving DecidableEq, Repr

/-- Raw (pre-validation) JSON body for POST /api/masters: every field may
be absent. -/
structure RawMaster where
  name : Option String := none
  email : Option String := none
  phone : Option String := none
  city : Option String := none
  bio : Option String := none
  avatar : Option String := none
  skills : Option (List String) := none
  rating : Option Rat := none
  reviews_count : Option Int := none
  deriving DecidableEq, Repr

/-- Bound checks of the `Master` shape (pydantic `Field(..., ge=..., le=...)`
on `rating` and `reviews_count`), with the declared defaults applied to
absent fields; last step of `validateMaster`. -/
def validateMasterBounds (raw : RawMaster) (name : String)
    (email avatar : Option String) : Except ValidationError Master :=
  if raw.rating.getD 0 < 0 then
    .error ⟨"rating", "Input should be greater than or equal to 0"⟩
  else if 5 < raw.rating.getD 0 then
    .error ⟨"rating", "Input should be less than or equal to 5"⟩
  else if raw.reviews_count.getD 0 < 0 then
    .error ⟨"reviews_count", "Input should be greater than or equal to 0"⟩
  else .ok { name := name, email := email, phone := raw.phone,
             city := raw.city, bio := raw.bio, avatar := avatar,
             skills := raw.skills.getD [], rating := raw.rating.getD 0,
             reviews_count := raw.reviews_count.getD 0 }

/-- The `avatar` check of the `Master` shape (`Optional[HttpUrl]`); middle
step of `validateMaster`. -/
def validateMasterAvatar (raw : RawMaster) (name : String)
    (email : Option String) : Except ValidationError Master :=
  match raw.avatar with
  | some a =>
    if is_valid_url a then validateMasterBounds raw name email (some a)
    else .error ⟨"avatar", "Input should be a valid URL"⟩
  | none => validateMasterBounds raw name email none

/-- Pydantic validation of the `Master` shape, in declared field order:
`name` required; `email` optional `EmailStr`; `avatar` optional `HttpUrl`;
`skills` defaults to `[]`; `rating` defaults to 0, bounded `ge=0, le=5`;
`reviews_count` defaults to 0, bounded `ge=0`. Pydantic aggregates every
failing field; the model reports the first, which is all the claims
need. -/
def validateMaster (raw : RawMaster) : Except ValidationError Master :=
  match raw.name with
  | none => .error ⟨"name", "Field required"⟩
  | some name =>
    match raw.email with
    | some e =>
      if is_valid_email e then validateMasterAvatar raw name (some e)
      else .error ⟨"email", "value is not a valid email address"⟩
    | none => validateMasterAvatar raw name none

/-! ## Stored documents and the store

The document store is schemaless; documents of the three collections the
endpoints touch are modelled with the fields the declared shapes write,
plus `_id` (here `docId`) assigned by the store, and — for masters — an
optional `verified` field that no declared shape or endpoint ever writes
(kept to model `doc.get("verified", False)` in `_serialize_master`). -/

/-- A document of the `"master"` collection. -/
structure MasterDoc where
  docId : String
  name : String
  email : Option String
  phone : Option String
  city : Option String
  bio : Option String
  avatar : Option String
  skills : List String
  rating : Rat
  reviews_count : Int
  verified : Option Bool
  deriving DecidableEq, Repr

/-- A document of the `"client"` collection. -/
structure ClientDoc where
  docId : String
  name : String
  email : String
  phone : Option String
  avatar : Option String
  deriving DecidableEq, Repr

/-- A document of the `"booking"` collection. -/
structure BookingDoc where
  docId : String
  master_id : String
  client_id : String
  service_id : String
  datetime_utc : String
  status : BookingStatus
  notes : Option String
  deriving DecidableEq, Repr

/-- The storage representation of a validated `Master`: its fields plus the
store-assigned id; no `verified` field is ever written. -/
def Master.toDoc (m : Master) (id : String) : MasterDoc :=
  { docId := id, name := m.name, email := m.email, phone := m.phone,
    city := m.city, bio := m.bio, avatar := m.avatar, skills := m.skills,
    rating := m.rating, reviews_count := m.reviews_count, verified := none }

/-- The storage representation of a validated `Client`. -/
def Client.toDoc (c : Client) (id : String) : ClientDoc :=
  { docId := id, name := c.name, email := c.email, phone := c.phone,
    avatar := c.avatar }

/-- The storage representation of a validated `Booking`. -/
def Booking.toDoc (b : Booking) (id : String) : BookingDoc :=
  { docId := id, master_id := b.master_id, client_id := b.client_id,
    service_id := b.service_id, datetime_utc := b.datetime_utc,
    status := b.status, notes := b.notes }

/-- The document store: one list per collection the endpoints touch
(insertion order), a counter for store-assigned ids, and a failure
schedule — `failures.headD false = true` makes the next gateway operation
fail, standing for the spec's StoreUnavailable / StoreWriteError /
StoreReadError conditions. An empty schedule means every operation
succeeds. -/
structure Store where
  masters : List MasterDoc
  clients : List ClientDoc
  bookings : List BookingDoc
  nextId : Nat
  failures : List Bool
  deriving DecidableEq, Repr

/-- A store with empty collections and an all-success schedule. -/
def initStore : Store :=
  { masters := [], clients := [], bookings := [], nextId := 0, failures := [] }

/-- The store-assigned identifier for the next inserted document. -/
def genId (s : Store) : String := "id" ++ toString s.nextId

/-- Pop the head of the failure schedule. -/
def consumeFailure (s : Store) : Store := { s with failures := s.failures.tail }

/-- Modelled from the spec: `database.create_document("master", record)` —
the gateway (`database.py`) is not part of the repository's source. Per the
spec's insert contract, it converts the validated record to its storage
representation, appends it to the named collection and returns a
store-assigned unique identifier; it fails (per the failure schedule)
without writing on an underlying store failure. -/
def create_document_master (s : Store) (m : Master) :
    Except StoreError String × Store :=
  if s.failures.headD false then (.error .writeError, consumeFailure s)
  else (.ok (genId s),
    { consumeFailure s with
        masters := s.masters ++ [m.toDoc (genId s)], nextId := s.nextId + 1 })

/-- Modelled from the spec: `database.create_document("client", record)`;
see `create_document_master`. -/
def create_document_client (s : Store) (c : Client) :
    Except StoreError String × Store :=
  if s.failures.headD false then (.error .writeError, consumeFailure s)
  else (.ok (genId s),
    { consumeFailure s with
        clients := s.clients ++ [c.toDoc (genId s)], nextId := s.nextId + 1 })

/-- Modelled from the spec: `database.create_document("booking", record)`;
see `create_document_master`. -/
def create_document_booking (s : Store) (b : Booking) :
    Except StoreError String × Store :=
  if s.failures.headD false then (.error .writeError, consumeFailure s)
  else (.ok (genId s),
    { consumeFailure s with
        bookings := s.bookings ++ [b.toDoc (genId s)], nextId := s.nextId + 1 })

/-- Mongo-style equality predicate for the only filter `list_masters`
builds: `{"city": c}` matches documents whose `city` field equals `c`; the
empty filter matches everything. -/
def matchesCityFilter (filt : Option String) (d : MasterDoc) : Bool :=
  match filt with
  | none => true
  | some c => d.city == some c

/-- Equality predicate for the only filter `list_bookings` builds:
`{"master_id": m}`. -/
def matchesMasterIdFilter (filt : Option String) (d : BookingDoc) : Bool :=
  match filt with
  | none => true
  | some m => d.master_id == m

/-- Modelled from the spec: `database.get_documents("master", filter,
limit)` — find-many with equality filter and limit, returning matches in
insertion order; fails (per the failure schedule) on a store failure. -/
def get_documents_master (s : Store) (filt : Option String) (limit : Nat) :
    Except StoreError (List MasterDoc) :=
  if s.failures.headD false then .error .readError
  else .ok ((s.masters.filter (matchesCityFilter filt)).take limit)

/-- Modelled from the spec: `database.get_documents("booking", filter,
limit)`; see `get_documents_master`. -/
def get_documents_booking (s : Store) (filt : Option String) (limit : Nat) :
    Except StoreError (List BookingDoc) :=
  if s.failures.headD false then .error .readError
  else .ok ((s.bookings.filter (matchesMasterIdFilter filt)).take limit)

/-! ## Schema catalogue (`/schema`) -/

/-- One field of a model's JSON schema, as exposed by
`model_json_schema()`: name, JSON type, required flag. -/
structure FieldDescr where
  field : String
  ty : String
  required : Bool
  deriving DecidableEq, Repr

/-- The JSON-schema field list of `schemas.Master`. -/
def masterSchema : List FieldDescr :=
  [⟨"name", "string", true⟩, ⟨"email", "string", false⟩,
   ⟨"phone", "string", false⟩, ⟨"city", "string", false⟩,
   ⟨"bio", "string", false⟩, ⟨"avatar", "string", false⟩,
   ⟨"skills", "array", false⟩, ⟨"rating", "number", false⟩,
   ⟨"reviews_count", "integer", false⟩]

/-- The JSON-schema field list of `schemas.Client`. -/
def clientSchema : List FieldDescr :=
  [⟨"name", "string", true⟩, ⟨"email", "string", true⟩,
   ⟨"phone", "string", false⟩, ⟨"avatar", "string", false⟩]

/-- The JSON-schema field list of `schemas.Service`. -/
def serviceSchema : List FieldDescr :=
  [⟨"title", "string", true⟩, ⟨"category", "string", true⟩,
   ⟨"subcategory", "string", false⟩, ⟨"description", "string", false⟩,
   ⟨"price", "number", true⟩, ⟨"duration_min", "integer", true⟩,
   ⟨"master_id", "string", false⟩]

/-- The JSON-schema field list of `schemas.Booking`. -/
def bookingSchema : List FieldDescr :=
  [⟨"master_id", "string", true⟩, ⟨"client_id", "string", true⟩,
   ⟨"service_id", "string", true⟩, ⟨"datetime_utc", "string", true⟩,
   ⟨"status", "string", false⟩, ⟨"notes", "string", false⟩]

/-- The JSON-schema field list of `schemas.Review`. -/
def reviewSchema : List FieldDescr :=
  [⟨"master_id", "string", true⟩, ⟨"client_id", "string", true⟩,
   ⟨"rating", "integer", true⟩, ⟨"comment", "string", false⟩]

/-- The JSON-schema field list of `schemas.Portfolioitem`. -/
def portfolioitemSchema : List FieldDescr :=
  [⟨"master_id", "string", true⟩, ⟨"title", "string", false⟩,
   ⟨"image_url", "string", true⟩, ⟨"tags", "array", false⟩]

/-- Embeds `schemas.ALL_SCHEMAS`: the map from entity-kind name to declared
model, in source order. -/
def ALL_SCHEMAS : List (String × List FieldDescr) :=
  [("master", masterSchema), ("client", clientSchema),
   ("service", serviceSchema), ("booking", bookingSchema),
   ("review", reviewSchema), ("portfolioitem", portfolioitemSchema)]

/-- Embeds `main.get_schema` (GET /schema): for every entry of `ALL_SCHEMAS`,
expose `model_json_schema()`. A pure function of the immutable declared
shapes, hence identical on every call. -/
def get_schema : List (String × List FieldDescr) :=
  ALL_SCHEMAS.map (fun p => (p.1, p.2))

/-! ## Masters API (`src/main.py`) -/

/-- Embeds `main.MasterOut`: the response model of GET /api/masters. -/
structure MasterOut where
  id : String
  name : String
  role : Option String := none
  rating : Rat := 0
  reviews_count : Int := 0
  city : Option String := none
  avatar : Option String := none
  verified : Bool := false
  deriving DecidableEq, Repr

/-- Embeds `main._serialize_master`: `role` is
`(doc.get("skills") or [None])[0]` — the first skill when the list is
non-empty, else `None`; `verified` is `bool(doc.get("verified", False))`,
`False` when the document has no such field. -/
def serialize_master (doc : MasterDoc) : MasterOut :=
  { id := doc.docId,
    name := doc.name,
    role := match doc.skills with
            | [] => none
            | x :: _ => some x,
    rating := doc.rating,
    reviews_count := doc.reviews_count,
    city := doc.city,
    avatar := doc.avatar,
    verified := doc.verified.getD false }

/-- The filter `list_masters` builds: `filter_q = {}; if city:
filter_q["city"] = city` — python falsiness skips the filter for both
`None` and the empty string. -/
def cityFilterOf (city : Option String) : Option String :=
  match city with
  | some c => if c = "" then none else some c
  | none => none

/-- The filter `list_bookings` builds: `q = {"master_id": master_id} if
master_id else {}` — python falsiness skips the filter for both `None` and
the empty string. -/
def masterIdFilterOf (master_id : Option String) : Option String :=
  match master_id with
  | some m => if m = "" then none else some m
  | none => none

/-- Embeds `main.list_masters` (GET /api/masters). FastAPI
`Query(default=12, ge=1, le=100)` rejects any limit outside `[1,100]`
before the handler body runs (InvalidInput, no store access). In the body,
`if city:` skips the filter for both `None` and the empty string (python
falsiness), gateway failures become the 500 InternalError. -/
def list_masters (s : Store) (city : Option String) (limit : Int) :
    Except ApiError (List MasterOut) :=
  if limit < 1 ∨ 100 < limit then .error (.invalidInput "limit")
  else
    match get_documents_master s (cityFilterOf city) limit.toNat with
    | .error _ => .error .internalError
    | .ok docs => .ok (docs.map serialize_master)

/-- Embeds `main.create_master` (POST /api/masters) handler body: runs on an
already-validated `Master`; a gateway failure becomes the 500
InternalError. -/
def create_master (s : Store) (master : Master) :
    Except ApiError String × Store :=
  match create_document_master s master with
  | (.error _, s1) => (.error .internalError, s1)
  | (.ok new_id, s1) => (.ok new_id, s1)

/-- POST /api/masters as a caller sees it: pydantic validation of the raw
body (rejected as InvalidInput naming the offending field, before any
store operation), then the `create_master` handler. -/
def api_create_master (s : Store) (raw : RawMaster) :
    Except ApiError String × Store :=
  match validateMaster raw with
  | .error e => (.error (.invalidInput e.field), s)
  | .ok master => create_master s master

/-- The three hardcoded sample masters of `main.seed_demo_data`. -/
def sampleMasters : List Master :=
  [{ name := "Анна Петрова", city := some "Москва", skills := ["Визажист"],
     rating := 4.9, reviews_count := 182,
     avatar := some "https://images.unsplash.com/photo-1527980965255-d3b416303d12?q=80&w=300&auto=format&fit=crop" },
   { name := "Ирина Смирнова", city := some "Санкт-Петербург",
     skills := ["Мастер маникюра"], rating := 4.8, reviews_count := 240,
     avatar := some "https://images.unsplash.com/photo-1544005313-94ddf0286df2?q=80&w=300&auto=format&fit=crop" },
   { name := "Мария Иванова", city := some "Казань",
     skills := ["Парикмахер-стилист"], rating := 5.0, reviews_count := 320,
     avatar := some "https://images.unsplash.com/photo-1502685104226-ee32379fefbe?q=80&w=300&auto=format&fit=crop" }]

/-- Sequential inserts of `[create_document("master", m) for m in sample]`:
stops at the first gateway failure (the comprehension raises), keeping the
documents already written. -/
def create_documents_master (s : Store) :
    List Master → Except StoreError (List String) × Store
  | [] => (.ok [], s)
  | m :: ms =>
    match create_document_master s m with
    | (.error e, s1) => (.error e, s1)
    | (.ok id, s1) =>
      match create_documents_master s1 ms with
      | (.error e, s2) => (.error e, s2)
      | (.ok ids, s2) => (.ok (id :: ids), s2)

/-- Embeds `main.seed_demo_data` (POST /api/seed): insert the three sample
masters; on any gateway failure the 500 InternalError. -/
def seed_demo_data (s : Store) :
    Except ApiError (Nat × List String) × Store :=
  match create_documents_master s sampleMasters with
  | (.error _, s1) => (.error .internalError, s1)
  | (.ok ids, s1) => (.ok (ids.length, ids), s1)

/-! ## Booking API (`src/main.py`) -/

/-- Embeds `main.BookingRequest` (validated body of POST /api/bookings). -/
structure BookingRequest where
  master_id : String
  name : String
  email : String
  datetime_utc : String
  notes : Option String := none
  deriving DecidableEq, Repr

/-- Raw (pre-validation) JSON body for POST /api/bookings. -/
structure RawBookingRequest where
  master_id : Option String := none
  name : Option String := none
  email : Option String := none
  datetime_utc : Option String := none
  notes : Option String := none
  deriving DecidableEq, Repr

/-- Pydantic validation of `BookingRequest`, in declared field order:
`master_id`, `name`, `email` (an `EmailStr`) and `datetime_utc` required,
`notes` optional. -/
def validateBookingRequest (raw : RawBookingRequest) :
    Except ValidationError BookingRequest :=
  match raw.master_id with
  | none => .error ⟨"master_id", "Field required"⟩
  | some master_id =>
    match raw.name with
    | none => .error ⟨"name", "Field required"⟩
    | some name =>
      match raw.email with
      | none => .error ⟨"email", "Field required"⟩
      | some email =>
        if is_valid_email email then
          match raw.datetime_utc with
          | none => .error ⟨"datetime_utc", "Field required"⟩
          | some dt =>
            .ok { master_id := master_id, name := name, email := email,
                  datetime_utc := dt, notes := raw.notes }
        else .error ⟨"email", "value is not a valid email address"⟩

/-- Embeds `main.BookingOut`: the response model of POST /api/bookings. -/
structure BookingOut where
  id : String
  status : String
  deriving DecidableEq, Repr

/-- Embeds `main.create_booking` (POST /api/bookings) handler body: insert a new
`Client` built from `name`+`email`, then a `Booking` referencing the
returned client id with `service_id = "unknown"` and `status = "pending"`;
any gateway failure becomes the single 500 InternalError, with no
compensation for a write that already happened. -/
def create_booking (s : Store) (req : BookingRequest) :
    Except ApiError BookingOut × Store :=
  let client : Client := { name := req.name, email := req.email }
  match create_document_client s client with
  | (.error _, s1) => (.error .internalError, s1)
  | (.ok client_id, s1) =>
    let booking : Booking :=
      { master_id := req.master_id, client_id := client_id,
        service_id := "unknown", datetime_utc := req.datetime_utc,
        status := .pending, notes := req.notes }
    match create_document_booking s1 booking with
    | (.error _, s2) => (.error .internalError, s2)
    | (.ok booking_id, s2) => (.ok ⟨booking_id, "pending"⟩, s2)

/-- POST /api/bookings as a caller sees it: pydantic validation, then the
`create_booking` handler. -/
def api_create_booking (s : Store) (raw : RawBookingRequest) :
    Except ApiError BookingOut × Store :=
  match validateBookingRequest raw with
  | .error e => (.error (.invalidInput e.field), s)
  | .ok req => create_booking s req

/-- A `"booking"` document after the `list_bookings` sanitize step:
`d["id"] = str(d.pop("_id", ""))`. -/
structure BookingRecordOut where
  id : String
  master_id : String
  client_id : String
  service_id : String
  datetime_utc : String
  status : BookingStatus
  notes : Option String
  deriving DecidableEq, Repr

/-- The sanitize step of `list_bookings`. -/
def sanitizeBooking (d : BookingDoc) : BookingRecordOut :=
  { id := d.docId, master_id := d.master_id, client_id := d.client_id,
    service_id := d.service_id, datetime_utc := d.datetime_utc,
    status := d.status, notes := d.notes }

/-- Embeds `main.list_bookings` (GET /api/bookings). FastAPI
`Query(default=50, ge=1, le=200)` rejects any limit outside `[1,200]`
before the handler body runs. `q = {"master_id": master_id} if master_id
else {}` skips the filter for both `None` and the empty string. -/
def list_bookings (s : Store) (master_id : Option String) (limit : Int) :
    Except ApiError (List BookingRecordOut) :=
  if limit < 1 ∨ 200 < limit then .error (.invalidInput "limit")
  else
    match get_documents_booking s (masterIdFilterOf master_id) limit.toNat with
    | .error _ => .error .internalError
    | .ok docs => .ok (docs.map sanitizeBooking)

/-! ## Request traces (state-changing endpoints) -/

/-- One call to a state-changing endpoint, with its raw body. -/
inductive ApiOp where
  | createMaster (raw : RawMaster)
  | seed
  | createBooking (raw : RawBookingRequest)

/-- The store after serving one state-changing request. -/
def applyOp (s : Store) : ApiOp → Store
  | .createMaster raw => (api_create_master s raw).2
  | .seed => (seed_demo_data s).2
  | .createBooking raw => (api_create_booking s raw).2

/-- The store after serving a sequence of state-changing requests. -/
def runOps (s : Store) (ops : List ApiOp) : Store :=
  ops.foldl applyOp s

/-- The claim's "clamped" reading of the spec sentence on limits,
formalised for comparison with the code: a limit of 0 or negative is
rejected as InvalidInput, while a limit above 100 is clamped down to 100
and the query proceeds. -/
def list_masters_spec_clamped (s : Store) (city : Option String)
    (limit : Int) : Except ApiError (List MasterOut) :=
  if limit < 1 then .error (.invalidInput "limit")
  else
    match get_documents_master s (cityFilterOf city) (min limit 100).toNat with
    | .error _ => .error .internalError
    | .ok docs => .ok (docs.map serialize_master)

/-! ## Theorems -/

/-- Claim C5: `get_schema` returns a mapping whose key set is exactly the
six entity kinds `master`, `client`, `service`, `booking`, `review`,
`portfolioitem` — no more and no fewer. It is a pure function of the
immutable declared shapes (it takes no state at all), so it is the same
mapping on every call. -/
theorem get_schema_exactly_six_kinds :
    get_schema.map Prod.fst =
      ["master", "client", "service", "booking", "review", "portfolioitem"] := by
  rfl

/-- Claim C7: for every stored master document, the serialization used by
`list_masters` exposes the first element of the `skills` list as `role`,
and `none` (null) when the list is empty — exactly `List.head?`; being a
total Lean function, it never fails, on the empty list included. -/
theorem serialize_master_role_is_first_skill (d : MasterDoc) :
    (serialize_master d).role = d.skills.head? := by
  obtain ⟨id, name, email, phone, city, bio, avatar, skills, rating, rc, v⟩ := d
  cases skills <;> rfl

/-- Claim C9: an empty-string `city` is treated as an absent filter by
`list_masters` (python falsiness of `if city:`), not as an exact match
against empty cities; likewise an empty-string `master_id` for
`list_bookings`. -/
theorem empty_string_filter_is_absent (s : Store) (limit : Int) :
    list_masters s (some "") limit = list_masters s none limit ∧
    list_bookings s (some "") limit = list_bookings s none limit := by
  constructor <;> rfl

/-- Claim C2, as stated, is false: the code does not clamp an over-limit
value down into range — FastAPI's `Query(ge=1, le=100)` rejects it. At
`limit = 101` the clamping reading queries the store with limit 100 and
answers `ok`, while `list_masters` answers InvalidInput. -/
theorem limit_clamping_refuted :
    list_masters initStore none 101 = .error (.invalidInput "limit") ∧
    list_masters_spec_clamped initStore none 101 = .ok [] := by
  constructor <;> rfl

/-- Claim C2 (amended): every limit outside `[1,100]` for `list_masters`
and `[1,200]` for `list_bookings` — a value of 0 or negative as well as a
value above the upper bound — is rejected as InvalidInput before any store
operation; an in-range limit is passed to the store unchanged, so at most
`limit` records come back. -/
theorem limit_range_validation (s : Store) (city mid : Option String)
    (limit : Int) :
    ((limit < 1 ∨ 100 < limit) →
      list_masters s city limit = .error (.invalidInput "limit")) ∧
    ((limit < 1 ∨ 200 < limit) →
      list_bookings s mid limit = .error (.invalidInput "limit")) ∧
    (1 ≤ limit → limit ≤ 100 → s.failures.headD false = false →
      ∃ out, list_masters s city limit = .ok out ∧
        out.length ≤ limit.toNat) ∧
    (1 ≤ limit → limit ≤ 200 → s.failures.headD false = false →
      ∃ out, list_bookings s mid limit = .ok out ∧
        out.length ≤ limit.toNat) := by
  refine ⟨?_, ?_, ?_, ?_⟩
  · intro h
    unfold list_masters
    rw [if_pos h]
  · intro h
    unfold list_bookings
    rw [if_pos h]
  · intro h1 h2 hf
    unfold list_masters
    rw [if_neg (by omega)]
    simp only [get_documents_master, hf, Bool.false_eq_true, if_false]
    exact ⟨_, rfl, by
      simp only [List.length_map, List.length_take]
      exact Nat.min_le_left _ _⟩
  · intro h1 h2 hf
    unfold list_bookings
    rw [if_neg (by omega)]
    simp only [get_documents_booking, hf, Bool.false_eq_true, if_false]
    exact ⟨_, rfl, by
      simp only [List.length_map, List.length_take]
      exact Nat.min_le_left _ _⟩

/-- Witness for `limit_range_validation`: at limit 0 `list_masters`
rejects, at limit 201 `list_bookings` rejects. -/
theorem limit_range_validation_witness :
    list_masters initStore none 0 = .error (.invalidInput "limit") ∧
    list_bookings initStore none 201 = .error (.invalidInput "limit") :=
  ⟨(limit_range_validation initStore none none 0).1 (Or.inl (by decide)),
   (limit_range_validation initStore none none 201).2.1 (Or.inr (by decide))⟩

/-- Claim C3: a request body that fails the declared-shape validation
(malformed email, missing required field, out-of-range value) is rejected
as InvalidInput naming the offending field, and the store is returned
exactly as it was — no store operation occurs; for POST /api/masters and
POST /api/bookings alike. -/
theorem invalid_body_rejected_before_store :
    (∀ (s : Store) (raw : RawMaster) (e : ValidationError),
        validateMaster raw = .error e →
        api_create_master s raw = (.error (.invalidInput e.field), s)) ∧
    (∀ (s : Store) (raw : RawBookingRequest) (e : ValidationError),
        validateBookingRequest raw = .error e →
        api_create_booking s raw = (.error (.invalidInput e.field), s)) := by
  constructor
  · intro s raw e h
    simp [api_create_master, h]
  · intro s raw e h
    simp [api_create_booking, h]

/-- Witness for `invalid_body_rejected_before_store`: POST /api/masters
with email `"not-an-email"` is rejected as InvalidInput on field `email`
and performs no store write. -/
theorem invalid_body_rejected_witness :
    api_create_master initStore { name := some "X", email := some "not-an-email" } =
      (.error (.invalidInput "email"), initStore) :=
  invalid_body_rejected_before_store.1 initStore
    { name := some "X", email := some "not-an-email" }
    ⟨"email", "value is not a valid email address"⟩ (by rfl)

/-- Claim C1: the POST /api/bookings handler, on a valid request body and
a willing store, first inserts a new `Client` built from `name` and
`email` (the first conjunct: that insert returns id `genId s`), then
inserts a `Booking` whose `client_id` is exactly that returned id, whose
`service_id` is the sentinel `"unknown"` and whose `status` is `pending`,
and answers with the booking id together with status `"pending"`. -/
theorem create_booking_two_inserts (s : Store) (raw : RawBookingRequest)
    (req : BookingRequest) (hval : validateBookingRequest raw = .ok req)
    (h1 : s.failures.headD false = false)
    (h2 : s.failures.tail.headD false = false) :
    (create_document_client s { name := req.name, email := req.email }).1 =
      .ok (genId s) ∧
    api_create_booking s raw =
      (.ok { id := "id" ++ toString (s.nextId + 1), status := "pending" },
       { masters := s.masters,
         clients := s.clients ++
           [{ docId := genId s, name := req.name, email := req.email,
              phone := none, avatar := none }],
         bookings := s.bookings ++
           [{ docId := "id" ++ toString (s.nextId + 1),
              master_id := req.master_id, client_id := genId s,
              service_id := "unknown", datetime_utc := req.datetime_utc,
              status := .pending, notes := req.notes }],
         nextId := s.nextId + 2,
         failures := s.failures.tail.tail }) := by
  simp at h1 h2
  constructor
  · simp [create_document_client, h1]
  · simp [api_create_booking, hval, create_booking, create_document_client,
          create_document_booking, consumeFailure, h1, h2, genId,
          Client.toDoc, Booking.toDoc]

/-- The concrete valid request body of the spec's example. -/
def rawJane : RawBookingRequest :=
  { master_id := some "abc123", name := some "Jane Doe",
    email := some "jane@example.com",
    datetime_utc := some "2024-06-01T10:00:00Z" }

/-- The request `rawJane` after validation. -/
def janeReq : BookingRequest :=
  { master_id := "abc123", name := "Jane Doe", email := "jane@example.com",
    datetime_utc := "2024-06-01T10:00:00Z" }

/-- Witness for `create_booking_two_inserts` at the spec's example
request, on the empty store. -/
theorem create_booking_two_inserts_witness :
    (create_document_client initStore
        { name := "Jane Doe", email := "jane@example.com" }).1 = .ok "id0" ∧
    api_create_booking initStore rawJane =
      (.ok { id := "id1", status := "pending" },
       { masters := [],
         clients := [{ docId := "id0", name := "Jane Doe",
                       email := "jane@example.com", phone := none,
                       avatar := none }],
         bookings := [{ docId := "id1", master_id := "abc123",
                        client_id := "id0", service_id := "unknown",
                        datetime_utc := "2024-06-01T10:00:00Z",
                        status := .pending, notes := none }],
         nextId := 2, failures := [] }) :=
  create_booking_two_inserts initStore rawJane janeReq (by rfl) (by rfl)
    (by rfl)

/-- Successful `Master` validation yields exactly the declared defaults on
absent fields and the declared bounds on `rating` and `reviews_count`
(helper for the shape-invariant theorem). -/
theorem validateMasterBounds_ok_shape (raw : RawMaster) (name : String)
    (email avatar : Option String) (m : Master)
    (h : validateMasterBounds raw name email avatar = .ok m) :
    m.rating = raw.rating.getD 0 ∧
    m.reviews_count = raw.reviews_count.getD 0 ∧
    m.skills = raw.skills.getD [] ∧
    0 ≤ m.rating ∧ m.rating ≤ 5 ∧ 0 ≤ m.reviews_count := by
  unfold validateMasterBounds at h
  split at h
  · exact absurd h (by simp)
  split at h
  · exact absurd h (by simp)
  split at h
  · exact absurd h (by simp)
  injection h with h
  subst h
  refine ⟨rfl, rfl, rfl, ?_, ?_, ?_⟩
  · exact not_lt.mp (by assumption)
  · exact not_lt.mp (by assumption)
  · exact not_lt.mp (by assumption)

/-- Lift of `validateMasterBounds_ok_shape` through the avatar check. -/
theorem validateMasterAvatar_ok_shape (raw : RawMaster) (name : String)
    (email : Option String) (m : Master)
    (h : validateMasterAvatar raw name email = .ok m) :
    m.rating = raw.rating.getD 0 ∧
    m.reviews_count = raw.reviews_count.getD 0 ∧
    m.skills = raw.skills.getD [] ∧
    0 ≤ m.rating ∧ m.rating ≤ 5 ∧ 0 ≤ m.reviews_count := by
  unfold validateMasterAvatar at h
  split at h
  · split at h
    · exact validateMasterBounds_ok_shape raw name email _ m h
    · exact absurd h (by simp)
  · exact validateMasterBounds_ok_shape raw name email _ m h

/-- Lift of `validateMasterBounds_ok_shape` to the full validation. -/
theorem validateMaster_ok_shape (raw : RawMaster) (m : Master)
    (h : validateMaster raw = .ok m) :
    m.rating = raw.rating.getD 0 ∧
    m.reviews_count = raw.reviews_count.getD 0 ∧
    m.skills = raw.skills.getD [] ∧
    0 ≤ m.rating ∧ m.rating ≤ 5 ∧ 0 ≤ m.reviews_count := by
  unfold validateMaster at h
  split at h
  · exact absurd h (by simp)
  split at h
  · split at h
    · exact validateMasterAvatar_ok_shape raw _ _ m h
    · exact absurd h (by simp)
  · exact validateMasterAvatar_ok_shape raw _ _ m h

/-- Claim C6: every `Master` accepted by validation satisfies
`0 ≤ rating ≤ 5` and `0 ≤ reviews_count`; the defaults are rating 0,
reviews_count 0 and empty skills when the fields are not supplied; an
input violating a bound is rejected as InvalidInput; and the three
hardcoded seed masters satisfy the bounds as well. -/
theorem master_shape_invariants :
    (∀ (raw : RawMaster) (m : Master), validateMaster raw = .ok m →
        0 ≤ m.rating ∧ m.rating ≤ 5 ∧ 0 ≤ m.reviews_count) ∧
    (∀ n : String,
        validateMaster { name := some n } =
          .ok { name := n, rating := 0, reviews_count := 0, skills := [] }) ∧
    (∀ (raw : RawMaster) (r : Rat), raw.rating = some r → (r < 0 ∨ 5 < r) →
        ∃ e, validateMaster raw = .error e) ∧
    (∀ (raw : RawMaster) (k : Int), raw.reviews_count = some k → k < 0 →
        ∃ e, validateMaster raw = .error e) ∧
    (∀ m ∈ sampleMasters, 0 ≤ m.rating ∧ m.rating ≤ 5 ∧ 0 ≤ m.reviews_count) := by
  have okShape := validateMaster_ok_shape
  refine ⟨?_, ?_, ?_, ?_, ?_⟩
  · intro raw m h
    obtain ⟨_, _, _, hr0, hr5, hk⟩ := okShape raw m h
    exact ⟨hr0, hr5, hk⟩
  · intro n
    rfl
  · intro raw r hr hout
    cases hv : validateMaster raw with
    | error e => exact ⟨e, rfl⟩
    | ok m =>
      obtain ⟨hm, _, _, hr0, hr5, _⟩ := okShape raw m hv
      rw [hr] at hm
      simp only [Option.getD_some] at hm
      rcases hout with hlt | hgt
      · exact absurd (hm ▸ hr0) (not_le.mpr hlt)
      · exact absurd (hm ▸ hr5) (not_le.mpr hgt)
  · intro raw k hk hneg
    cases hv : validateMaster raw with
    | error e => exact ⟨e, rfl⟩
    | ok m =>
      obtain ⟨_, hm, _, _, _, hk0⟩ := okShape raw m hv
      rw [hk] at hm
      simp only [Option.getD_some] at hm
      exact absurd (hm ▸ hk0) (not_le.mpr hneg)
  · intro m hm
    simp only [sampleMasters, List.mem_cons, List.not_mem_nil, or_false] at hm
    rcases hm with rfl | rfl | rfl <;>
      exact ⟨by norm_num, by norm_num, by norm_num⟩

/-- Witness for `master_shape_invariants`: the bounds at the master
accepted from the body `{"name": "D"}`. -/
theorem master_shape_invariants_witness :
    0 ≤ ({ name := "D" } : Master).rating ∧
    ({ name := "D" } : Master).rating ≤ 5 ∧
    0 ≤ ({ name := "D" } : Master).reviews_count :=
  master_shape_invariants.1 { name := some "D" } { name := "D" } (by rfl)

/-- Whenever `list_masters` answers `ok`, the answer is exactly the first
`limit` matching documents, serialized (characterization helper). -/
theorem list_masters_ok_elim (s : Store) (city : Option String)
    (limit : Int) (out : List MasterOut)
    (h : list_masters s city limit = .ok out) :
    out = ((s.masters.filter
        (matchesCityFilter (cityFilterOf city))).take limit.toNat).map
          serialize_master := by
  unfold list_masters at h
  split at h
  · exact absurd h (by simp)
  unfold get_documents_master at h
  split at h
  · exact absurd h (by simp)
  · rename_i docs heq
    injection h with h
    subst h
    split at heq
    · exact absurd heq (by simp)
    · injection heq with heq
      rw [← heq]

/-- Claim C4: with a non-empty `city` query, `list_masters` returns only
summaries whose city equals the query value exactly; with the filter
absent it returns the first `limit` stored masters regardless of city —
never more than `limit`. -/
theorem list_masters_city_exact_match :
    (∀ (s : Store) (c : String) (limit : Int) (out : List MasterOut),
        c ≠ "" → list_masters s (some c) limit = .ok out →
        ∀ o ∈ out, o.city = some c) ∧
    (∀ (s : Store) (limit : Int) (out : List MasterOut),
        list_masters s none limit = .ok out →
        out = (s.masters.take limit.toNat).map serialize_master ∧
        out.length ≤ limit.toNat) := by
  constructor
  · intro s c limit out hc h o ho
    rw [list_masters_ok_elim s (some c) limit out h] at ho
    rw [show cityFilterOf (some c) = some c by simp [cityFilterOf, hc]] at ho
    obtain ⟨d, hd, rfl⟩ := List.mem_map.mp ho
    have hd2 := List.mem_filter.mp (List.take_subset _ _ hd)
    have hcity : d.city = some c := by
      simpa [matchesCityFilter] using hd2.2
    simpa [serialize_master] using hcity
  · intro s limit out h
    have hout := list_masters_ok_elim s none limit out h
    have hfilter : s.masters.filter (matchesCityFilter (cityFilterOf none)) =
        s.masters := List.filter_true s.masters
    rw [hfilter] at hout
    refine ⟨hout, ?_⟩
    rw [hout]
    simp only [List.length_map, List.length_take]
    exact Nat.min_le_left _ _

/-- The summary of the first seed master, as `list_masters` reports it. -/
def moscowOut : MasterOut :=
  { id := "id0", name := "Анна Петрова", role := some "Визажист",
    rating := 4.9, reviews_count := 182, city := some "Москва",
    avatar := some "https://images.unsplash.com/photo-1527980965255-d3b416303d12?q=80&w=300&auto=format&fit=crop",
    verified := false }

/-- Witness for `list_masters_city_exact_match`: after seeding,
`GET /api/masters?city=Москва&limit=1` returns exactly the one master in
Москва. -/
theorem list_masters_city_exact_match_witness :
    moscowOut.city = some "Москва" :=
  list_masters_city_exact_match.1 (runOps initStore [ApiOp.seed]) "Москва" 1
    [moscowOut] (by decide) (by rfl) moscowOut (List.mem_singleton_self _)

/-- Claim C8: every gateway failure is surfaced as a single InternalError,
in every endpoint; in particular, when the client insert of
`create_booking` succeeds and the booking insert fails, the caller gets
one InternalError while the client document stays in the store and no
booking document is written — no rollback or compensation (first
conjunct: the resulting store keeps the appended client, its `bookings`
are unchanged). -/
theorem gateway_failure_internal_error :
    (∀ (s : Store) (req : BookingRequest),
        s.failures.headD false = false → s.failures.tail.headD false = true →
        create_booking s req =
          (.error .internalError,
           { masters := s.masters,
             clients := s.clients ++
               [{ docId := genId s, name := req.name, email := req.email,
                  phone := none, avatar := none }],
             bookings := s.bookings,
             nextId := s.nextId + 1,
             failures := s.failures.tail.tail })) ∧
    (∀ (s : Store) (req : BookingRequest), s.failures.headD false = true →
        create_booking s req = (.error .internalError, consumeFailure s)) ∧
    (∀ (s : Store) (m : Master), s.failures.headD false = true →
        create_master s m = (.error .internalError, consumeFailure s)) ∧
    (∀ (s : Store) (city : Option String) (limit : Int),
        ¬(limit < 1 ∨ 100 < limit) → s.failures.headD false = true →
        list_masters s city limit = .error .internalError) ∧
    (∀ (s : Store) (mid : Option String) (limit : Int),
        ¬(limit < 1 ∨ 200 < limit) → s.failures.headD false = true →
        list_bookings s mid limit = .error .internalError) ∧
    (∀ s : Store, s.failures.headD false = true →
        seed_demo_data s = (.error .internalError, consumeFailure s)) := by
  refine ⟨?_, ?_, ?_, ?_, ?_, ?_⟩
  · intro s req h1 h2
    simp at h1 h2
    simp [create_booking, create_document_client, create_document_booking,
          consumeFailure, h1, h2, genId, Client.toDoc]
  · intro s req h1
    simp at h1
    simp [create_booking, create_document_client, consumeFailure, h1]
  · intro s m h1
    simp at h1
    simp [create_master, create_document_master, consumeFailure, h1]
  · intro s city limit hlim h1
    simp at h1
    unfold list_masters
    rw [if_neg hlim]
    simp [get_documents_master, h1]
  · intro s mid limit hlim h1
    simp at h1
    unfold list_bookings
    rw [if_neg hlim]
    simp [get_documents_booking, h1]
  · intro s h1
    simp at h1
    simp [seed_demo_data, create_documents_master, sampleMasters,
          create_document_master, consumeFailure, h1]

/-- Witness for `gateway_failure_internal_error`: the store whose second
write fails keeps the orphaned client after a failed booking creation. -/
theorem gateway_failure_internal_error_witness :
    create_booking { initStore with failures := [false, true] } janeReq =
      (.error .internalError,
       { masters := [],
         clients := [{ docId := "id0", name := "Jane Doe",
                       email := "jane@example.com", phone := none,
                       avatar := none }],
         bookings := [], nextId := 1, failures := [] }) :=
  gateway_failure_internal_error.1 { initStore with failures := [false, true] }
    janeReq (by rfl) (by rfl)

/-- A document present after one `create_document_master` call was either
present before, or is the freshly written one — which carries no
`verified` field (helper). -/
theorem mem_create_document_master_verified (s : Store) (m : Master)
    (d : MasterDoc) (hd : d ∈ (create_document_master s m).2.masters) :
    d ∈ s.masters ∨ d.verified = none := by
  unfold create_document_master at hd
  split at hd
  · exact Or.inl hd
  · rcases List.mem_append.mp hd with h | h
    · exact Or.inl h
    · right
      rw [List.mem_singleton.mp h]
      rfl

/-- Extension of `mem_create_document_master_verified` to the seed's
sequential inserts. -/
theorem mem_create_documents_master_verified (ms : List Master) :
    ∀ (s : Store) (d : MasterDoc),
      d ∈ (create_documents_master s ms).2.masters →
      d ∈ s.masters ∨ d.verified = none := by
  induction ms with
  | nil => intro s d hd; exact Or.inl hd
  | cons m ms ih =>
    intro s d hd
    unfold create_documents_master at hd
    rcases hc : create_document_master s m with ⟨res, s1⟩
    rw [hc] at hd
    cases res with
    | error e =>
      exact mem_create_document_master_verified s m d (by rw [hc]; exact hd)
    | ok id =>
      dsimp only at hd
      rcases hr : create_documents_master s1 ms with ⟨res2, s2⟩
      rw [hr] at hd
      have hds2 : d ∈ s2.masters := by cases res2 <;> exact hd
      rcases ih s1 d (by rw [hr]; exact hds2) with h | h
      · exact mem_create_document_master_verified s m d (by rw [hc]; exact h)
      · exact Or.inr h

/-- The handler `create_booking` never touches the `"master"` collection (helper). -/
theorem api_create_booking_masters_eq (s : Store) (raw : RawBookingRequest) :
    (api_create_booking s raw).2.masters = s.masters := by
  unfold api_create_booking
  cases hv : validateBookingRequest raw with
  | error e => rfl
  | ok req =>
    cases hf1 : s.failures.headD false with
    | true =>
      simp at hf1
      simp [create_booking, create_document_client, consumeFailure, hf1]
    | false =>
      simp at hf1
      cases hf2 : s.failures.tail.headD false with
      | true =>
        simp at hf2
        simp [create_booking, create_document_client,
              create_document_booking, consumeFailure, hf1, hf2]
      | false =>
        simp at hf2
        simp [create_booking, create_document_client,
              create_document_booking, consumeFailure, hf1, hf2]

/-- After any one state-changing request, a master document was either
already stored or carries no `verified` field (helper). -/
theorem mem_applyOp_masters (s : Store) (op : ApiOp) (d : MasterDoc)
    (hd : d ∈ (applyOp s op).masters) :
    d ∈ s.masters ∨ d.verified = none := by
  cases op with
  | createMaster raw =>
    simp only [applyOp] at hd
    unfold api_create_master at hd
    cases hv : validateMaster raw with
    | error e =>
      rw [hv] at hd
      exact Or.inl hd
    | ok m =>
      rw [hv] at hd
      dsimp only at hd
      unfold create_master at hd
      rcases hc : create_document_master s m with ⟨res, s1⟩
      rw [hc] at hd
      have hds1 : d ∈ s1.masters := by cases res <;> exact hd
      exact mem_create_document_master_verified s m d (by rw [hc]; exact hds1)
  | seed =>
    simp only [applyOp] at hd
    unfold seed_demo_data at hd
    rcases hr : create_documents_master s sampleMasters with ⟨res, s1⟩
    rw [hr] at hd
    have hds1 : d ∈ s1.masters := by cases res <;> exact hd
    exact mem_create_documents_master_verified sampleMasters s d
      (by rw [hr]; exact hds1)
  | createBooking raw =>
    rw [show (applyOp s (ApiOp.createBooking raw)).masters = s.masters from
      api_create_booking_masters_eq s raw] at hd
    exact Or.inl hd

/-- The invariant "no stored master has a `verified` field" is preserved by
every sequence of requests (helper). -/
theorem runOps_masters_verified_none (ops : List ApiOp) :
    ∀ s : Store, (∀ d ∈ s.masters, d.verified = none) →
      ∀ d ∈ (runOps s ops).masters, d.verified = none := by
  induction ops with
  | nil => intro s hs; exact hs
  | cons op ops ih =>
    intro s hs d hd
    have hstep : ∀ d ∈ (applyOp s op).masters, d.verified = none := by
      intro d hd1
      rcases mem_applyOp_masters s op d hd1 with h | h
      · exact hs d h
      · exact h
    exact ih (applyOp s op) hstep d hd

/-- Claim C10: every master created through this system's own endpoints
(`create_master`, the seed endpoint, or any mix of state-changing
requests starting from an empty store) is reported by `list_masters` with
`verified = false` — no declared shape or endpoint ever writes a
`verified` field, so serialization defaults it to false. -/
theorem created_masters_reported_unverified (ops : List ApiOp)
    (city : Option String) (limit : Int) (out : List MasterOut)
    (h : list_masters (runOps initStore ops) city limit = .ok out) :
    ∀ o ∈ out, o.verified = false := by
  intro o ho
  rw [list_masters_ok_elim _ _ _ _ h] at ho
  obtain ⟨d, hd, rfl⟩ := List.mem_map.mp ho
  have hdm : d ∈ (runOps initStore ops).masters :=
    (List.mem_filter.mp (List.take_subset _ _ hd)).1
  have hnone : d.verified = none :=
    runOps_masters_verified_none ops initStore
      (by intro d hd0; exact absurd hd0 (List.not_mem_nil d)) d hdm
  simp [serialize_master, hnone]

/-- The summary reported for a master created from the body
`{"name": "D"}`. -/
def dOut : MasterOut := { id := "id0", name := "D" }

/-- Witness for `created_masters_reported_unverified`: the one master
created by POST /api/masters on the empty store is listed with
`verified = false`. -/
theorem created_masters_reported_unverified_witness : dOut.verified = false :=
  created_masters_reported_unverified
    [ApiOp.createMaster { name := some "D" }] none 12 [dOut] (by rfl) dOut
    (List.mem_singleton_self _)

end BeautyConnect
